import Mathlib

/-!
Shallow embedding of `src/local_llm_chat/app.py` (class `LocalLLMChat`):
the dual-protocol LLM adapter (`_call_local_llm`, `_get_available_models`),
the service lifecycle probe (`_check_llm_status`, `_start_llm_service`),
the transcript store (`save_conversation`, `list_conversations`) and the
`/api/chat` handler.  Python values flowing through these functions are
modelled by the `Json` type below; Python runtime behaviours that can
raise (attribute access, subscripting, iteration, `len`) are modelled by
`Except String` results, where the string is the exception text.  HTTP
and subprocess effects are modelled by oracle arguments describing the
outcome of the single outbound call the code makes, and each function
returns the list of outbound requests it issued.
-/

/-- JSON-representable Python values (dicts keep insertion order, as in
CPython; keys of dicts built by the code are unique). -/
inductive Json where
  | null
  | bool (b : Bool)
  | num (q : Rat)
  | str (s : String)
  | arr (xs : List Json)
  | obj (fields : List (String × Json))

/-- Python type name of a value, used in exception messages. -/
def pyTypeName : Json → String
  | .null => "NoneType"
  | .bool _ => "bool"
  | .num _ => "float"
  | .str _ => "str"
  | .arr _ => "list"
  | .obj _ => "dict"

/-- Dictionary lookup.  CPython dicts have unique keys (and `json.loads`
keeps the last value on duplicate keys), so the last binding wins. -/
def lookupField (fs : List (String × Json)) (key : String) : Option Json :=
  (fs.reverse.find? (fun p => p.1 == key)).map (fun p => p.2)

/-- `d.get(key, default)`: returns the value or the default on a dict,
raises `AttributeError` on any other value. -/
def pyGet (j : Json) (key : String) (dflt : Json) : Except String Json :=
  match j with
  | .obj fs => .ok ((lookupField fs key).getD dflt)
  | _ => .error ("\x27" ++ pyTypeName j ++ "\x27 object has no attribute \x27get\x27")

/-- `v[key]` with a string key: dict lookup raising `KeyError` when the
key is absent, `TypeError` on non-subscriptable values. -/
def pySubscript (j : Json) (key : String) : Except String Json :=
  match j with
  | .obj fs =>
    match lookupField fs key with
    | some v => .ok v
    | none => .error ("KeyError: \x27" ++ key ++ "\x27")
  | .str _ => .error "string indices must be integers"
  | _ => .error ("\x27" ++ pyTypeName j ++ "\x27 object is not subscriptable")

/-- `v[i]` with an int index: list indexing raising `IndexError` out of
range; string indexing yields a one-character string. -/
def pyIndex (j : Json) (i : Nat) : Except String Json :=
  match j with
  | .arr xs =>
    match xs.get? i with
    | some v => .ok v
    | none => .error "list index out of range"
  | .str s =>
    match s.data.get? i with
    | some c => .ok (.str (String.mk [c]))
    | none => .error "string index out of range"
  | _ => .error ("\x27" ++ pyTypeName j ++ "\x27 object is not subscriptable")

/-- `for x in v`: lists yield elements, strings one-character strings,
dicts their keys; other values raise `TypeError`. -/
def pyIterate (j : Json) : Except String (List Json) :=
  match j with
  | .arr xs => .ok xs
  | .str s => .ok (s.data.map (fun c => .str (String.mk [c])))
  | .obj fs => .ok (fs.map (fun p => .str p.1))
  | _ => .error ("\x27" ++ pyTypeName j ++ "\x27 object is not iterable")

/-- `len(v)`, raising `TypeError` on values without a length. -/
def pyLen (j : Json) : Except String Nat :=
  match j with
  | .arr xs => .ok xs.length
  | .str s => .ok s.length
  | .obj fs => .ok fs.length
  | _ => .error ("object of type \x27" ++ pyTypeName j ++ "\x27 has no len()")

/-- Python truthiness (`if v:`). -/
def pyTruthy : Json → Bool
  | .null => false
  | .bool b => b
  | .num q => !(q == 0)
  | .str s => !(s == "")
  | .arr xs => !xs.isEmpty
  | .obj fs => !fs.isEmpty

/-- Does `hay` start with `needle` (character lists)? -/
def charsStart : List Char → List Char → Bool
  | _, [] => true
  | [], _ :: _ => false
  | h :: hs, n :: ns => h == n && charsStart hs ns

/-- Does `hay` contain `needle` as a contiguous run (character lists)? -/
def charsHaveRun (needle : List Char) : List Char → Bool
  | [] => needle.isEmpty
  | c :: rest => charsStart (c :: rest) needle || charsHaveRun needle rest

/-- Python `needle in hay` on strings: contiguous-substring test. -/
def strContains (hay needle : String) : Bool :=
  charsHaveRun needle.data hay.data

/-- ASCII lowercase mapping of one character (`str.lower` restricted to
ASCII, which covers endpoint URLs). -/
def lowerChar (c : Char) : Char :=
  if 'A' ≤ c ∧ c ≤ 'Z' then Char.ofNat (c.toNat + 32) else c

/-- `s.lower()` on ASCII strings. -/
def strLower (s : String) : String :=
  String.mk (s.data.map lowerChar)

/-- Endpoint sniffing shared by `_call_local_llm` and
`_get_available_models`: `"11434" in endpoint or "ollama" in endpoint.lower()`. -/
def isOllamaEndpoint (endpoint : String) : Bool :=
  strContains endpoint "11434" || strContains (strLower endpoint) "ollama"

/-- One outbound HTTP request issued through the `requests` library. -/
structure HttpRequest where
  method : String
  url : String
  payload : Option Json

/-- Outcome of the single `requests.post`/`requests.get` call: either the
call raised a `requests.exceptions.RequestException` (network failure,
timeout), or a response arrived with a status code, a text body, and the
result of `.json()` (`.error` when the body is not valid JSON, carrying
the decode exception text). -/
inductive HttpOutcome where
  | requestException (msg : String)
  | response (status : Nat) (text : String) (body : Except String Json)

/-- Result dict of `_call_local_llm`: `{"content": ...}` or `{"error": ...}`. -/
inductive ChatResult where
  | content (c : Json)
  | error (msg : String)

/-- Ollama-variant request body of `_call_local_llm`. -/
def ollamaPayload (model messages temperature : Json) : Json :=
  .obj [("model", model), ("messages", messages), ("stream", .bool false),
        ("options", .obj [("temperature", temperature)])]

/-- OpenAI-variant request body of `_call_local_llm`. -/
def openaiPayload (model messages temperature : Json) : Json :=
  .obj [("model", model), ("messages", messages), ("temperature", temperature)]

/-- Reply-text extraction of `_call_local_llm` on a 200 response body:
Ollama variant `response_data.get("message", {}).get("content", "")`,
OpenAI variant `response_data.get("choices", [{}])[0].get("message", {}).get("content", "")`. -/
def extractChatContent (isOllama : Bool) (responseData : Json) : Except String Json :=
  if isOllama then
    match pyGet responseData "message" (.obj []) with
    | .error e => .error e
    | .ok m => pyGet m "content" (.str "")
  else
    match pyGet responseData "choices" (.arr [.obj []]) with
    | .error e => .error e
    | .ok cs =>
      match pyIndex cs 0 with
      | .error e => .error e
      | .ok c0 =>
        match pyGet c0 "message" (.obj []) with
        | .error e => .error e
        | .ok m => pyGet m "content" (.str "")

/-- `LocalLLMChat._call_local_llm(endpoint, model, messages, temperature)`.
Returns the adapter result together with the list of outbound requests
issued (the code performs exactly one `requests.post`). -/
def callLocalLLM (endpoint : String) (model messages temperature : Json)
    (outcome : HttpOutcome) : ChatResult × List HttpRequest :=
  let isOllama := isOllamaEndpoint endpoint
  let apiUrl := if isOllama then endpoint ++ "/api/chat" else endpoint ++ "/v1/chat/completions"
  let payload := if isOllama then ollamaPayload model messages temperature
                 else openaiPayload model messages temperature
  let req : HttpRequest := ⟨"POST", apiUrl, some payload⟩
  let result : ChatResult :=
    match outcome with
    | .requestException msg => .error ("Error connecting to LLM endpoint: " ++ msg)
    | .response status text body =>
      if status ≠ 200 then
        .error ("LLM API returned status " ++ toString status ++ ": " ++ text)
      else
        match body with
        | .error e => .error ("Unexpected error: " ++ e)
        | .ok responseData =>
          match extractChatContent isOllama responseData with
          | .ok c => .content c
          | .error e => .error ("Unexpected error: " ++ e)
  (result, [req])

/-- `[item[key] for item in items]`: the list comprehension of
`_get_available_models`, aborting on the first raised exception. -/
def pyComprehend (key : String) : List Json → Except String (List Json)
  | [] => .ok []
  | m :: rest =>
    match pySubscript m key with
    | .error e => .error e
    | .ok v =>
      match pyComprehend key rest with
      | .error e => .error e
      | .ok vs => .ok (v :: vs)

/-- Model-name extraction of `_get_available_models` on a 200 body:
`[model["name"] for model in data.get("models", [])]` (Ollama) or
`[model["id"] for model in data.get("data", [])]` (OpenAI). -/
def extractModelNames (isOllama : Bool) (data : Json) : Except String (List Json) :=
  if isOllama then
    match pyGet data "models" (.arr []) with
    | .error e => .error e
    | .ok ms =>
      match pyIterate ms with
      | .error e => .error e
      | .ok items => pyComprehend "name" items
  else
    match pyGet data "data" (.arr []) with
    | .error e => .error e
    | .ok ms =>
      match pyIterate ms with
      | .error e => .error e
      | .ok items => pyComprehend "id" items

/-- `LocalLLMChat._get_available_models(endpoint)`.  Total: every failure
(network error, non-200 status, JSON decode failure, extraction failure)
is caught and yields `[]`.  Also returns the outbound request issued. -/
def getAvailableModels (endpoint : String) (outcome : HttpOutcome) :
    List Json × List HttpRequest :=
  let isOllama := isOllamaEndpoint endpoint
  let apiUrl := if isOllama then endpoint ++ "/api/tags" else endpoint ++ "/v1/models"
  let req : HttpRequest := ⟨"GET", apiUrl, none⟩
  let names : List Json :=
    match outcome with
    | .requestException _ => []
    | .response status _ body =>
      if status == 200 then
        match body with
        | .error _ => []
        | .ok data =>
          match extractModelNames isOllama data with
          | .ok names => names
          | .error _ => []
      else []
  (names, [req])

/-- Outcome of a `subprocess.run` without `check=True`: either it
completed with a return code, or it raised (e.g. `TimeoutExpired`,
`FileNotFoundError`), carrying the exception text. -/
inductive ProcOutcome where
  | completed (returncode : Int)
  | raised (msg : String)

/-- The dict returned by `_check_llm_status`. -/
structure ServiceStatus where
  running : Bool
  installed : Bool
  endpoint : String
  models : List Json
  active_model : Option Json
  platform : String

/-- `LocalLLMChat._check_llm_status(endpoint)`.  `platformName` is
`platform.system()`; `whichOutcome` is the outcome of the
`where ollama` / `which ollama` lookup; `httpOutcome` feeds the
`_get_available_models` probe. -/
def checkLLMStatus (endpoint platformName : String) (whichOutcome : ProcOutcome)
    (httpOutcome : HttpOutcome) : ServiceStatus :=
  let installed :=
    match whichOutcome with
    | .completed rc => rc == 0
    | .raised _ => false
  match (getAvailableModels endpoint httpOutcome).1 with
  | [] =>
    { running := false, installed := installed, endpoint := endpoint,
      models := [], active_model := none, platform := platformName }
  | m :: rest =>
    { running := true, installed := installed, endpoint := endpoint,
      models := m :: rest, active_model := some m,
      platform := platformName }

/-- Outcome of a `subprocess.run(..., check=True)` start attempt:
completed successfully, raised `CalledProcessError` (non-zero exit),
raised `FileNotFoundError` (command absent), or raised some other
exception (e.g. `TimeoutExpired`). -/
inductive RunCheckOutcome where
  | ok
  | calledProcessError (msg : String)
  | fileNotFound (msg : String)
  | otherException (msg : String)

/-- One process-level action attempted by `_start_llm_service`:
a synchronous `subprocess.run` or a detached `subprocess.Popen`. -/
inductive Attempt where
  | run (cmd : List String)
  | popen (cmd : List String)

/-- The dict returned by `_start_llm_service` (absent keys are `none`). -/
structure StartServiceResult where
  success : Bool
  message : Option String
  error : Option String
  install_url : Option String

/-- `LocalLLMChat._start_llm_service()`.  `system` is `platform.system()`;
`whichOutcome` is the `where`/`which ollama` lookup; `svcOutcome` is the
platform-preferred start attempt (`systemctl start ollama`,
`brew services start ollama`, or `net start Ollama`); `popenOutcome` is
the `subprocess.Popen(["ollama", "serve"], ...)` fallback launch, `none`
when launching does not raise, `some msg` when it raises.  Returns the
result dict and the ordered list of attempted process actions.  The
Linux branch catches only `CalledProcessError` around `systemctl`, the
macOS branch catches `CalledProcessError` and `FileNotFoundError` around
`brew services`; any other exception reaches the outer handler, which
returns a failure without attempting the fallback.  The Windows branch
has no `ollama serve` fallback at all. -/
def startLLMService (system : String) (whichOutcome : ProcOutcome)
    (svcOutcome : RunCheckOutcome) (popenOutcome : Option String) :
    StartServiceResult × List Attempt :=
  let checkCmd := if system == "Windows" then ["where", "ollama"] else ["which", "ollama"]
  match whichOutcome with
  | .raised e =>
    ({ success := false, message := none,
       error := "Error checking Ollama installation: " ++ e, install_url := none },
     [.run checkCmd])
  | .completed rc =>
    if rc ≠ 0 then
      ({ success := false,
         message := "Please install Ollama using the installation scripts with the local model option.",
         error := "Ollama is not installed",
         install_url := "https://ollama.com/download" },
       [.run checkCmd])
    else if system == "Linux" then
      match svcOutcome with
      | .ok =>
        ({ success := true, message := "Ollama service started via systemctl",
           error := none, install_url := none },
         [.run checkCmd, .run ["systemctl", "start", "ollama"]])
      | .calledProcessError _ =>
        match popenOutcome with
        | none =>
          ({ success := true, message := "Ollama started in background",
             error := none, install_url := none },
           [.run checkCmd, .run ["systemctl", "start", "ollama"], .popen ["ollama", "serve"]])
        | some e =>
          ({ success := false,
             message := "Try running \x27ollama serve\x27 manually in a terminal",
             error := e, install_url := none },
           [.run checkCmd, .run ["systemctl", "start", "ollama"], .popen ["ollama", "serve"]])
      | .fileNotFound e =>
        ({ success := false,
           message := "Try running \x27ollama serve\x27 manually in a terminal",
           error := e, install_url := none },
         [.run checkCmd, .run ["systemctl", "start", "ollama"]])
      | .otherException e =>
        ({ success := false,
           message := "Try running \x27ollama serve\x27 manually in a terminal",
           error := e, install_url := none },
         [.run checkCmd, .run ["systemctl", "start", "ollama"]])
    else if system == "Darwin" then
      match svcOutcome with
      | .ok =>
        ({ success := true, message := "Ollama service started via brew services",
           error := none, install_url := none },
         [.run checkCmd, .run ["brew", "services", "start", "ollama"]])
      | .calledProcessError _ =>
        match popenOutcome with
        | none =>
          ({ success := true, message := "Ollama started in background",
             error := none, install_url := none },
           [.run checkCmd, .run ["brew", "services", "start", "ollama"], .popen ["ollama", "serve"]])
        | some e =>
          ({ success := false,
             message := "Try running \x27ollama serve\x27 manually in a terminal",
             error := e, install_url := none },
           [.run checkCmd, .run ["brew", "services", "start", "ollama"], .popen ["ollama", "serve"]])
      | .fileNotFound _ =>
        match popenOutcome with
        | none =>
          ({ success := true, message := "Ollama started in background",
             error := none, install_url := none },
           [.run checkCmd, .run ["brew", "services", "start", "ollama"], .popen ["ollama", "serve"]])
        | some e =>
          ({ success := false,
             message := "Try running \x27ollama serve\x27 manually in a terminal",
             error := e, install_url := none },
           [.run checkCmd, .run ["brew", "services", "start", "ollama"], .popen ["ollama", "serve"]])
      | .otherException e =>
        ({ success := false,
           message := "Try running \x27ollama serve\x27 manually in a terminal",
           error := e, install_url := none },
         [.run checkCmd, .run ["brew", "services", "start", "ollama"]])
    else if system == "Windows" then
      match svcOutcome with
      | .ok =>
        ({ success := true, message := "Ollama service started",
           error := none, install_url := none },
         [.run checkCmd, .run ["net", "start", "Ollama"]])
      | .calledProcessError _ =>
        ({ success := false,
           message := "Please start Ollama from the Start Menu or try running \x27ollama serve\x27 manually",
           error := "Could not start Ollama service", install_url := none },
         [.run checkCmd, .run ["net", "start", "Ollama"]])
      | .fileNotFound e =>
        ({ success := false,
           message := "Try running \x27ollama serve\x27 manually in a terminal",
           error := e, install_url := none },
         [.run checkCmd, .run ["net", "start", "Ollama"]])
      | .otherException e =>
        ({ success := false,
           message := "Try running \x27ollama serve\x27 manually in a terminal",
           error := e, install_url := none },
         [.run checkCmd, .run ["net", "start", "Ollama"]])
    else
      ({ success := false, message := none,
         error := "Unsupported platform: " ++ system, install_url := none },
       [.run checkCmd])

/-- A `datetime.now()` value, at the resolution the code observes. -/
structure DateTime where
  year : Nat
  month : Nat
  day : Nat
  hour : Nat
  minute : Nat
  second : Nat
  microsecond : Nat

/-- Zero-pad a number to a width, as `strftime`/`isoformat` do. -/
def padNum (width n : Nat) : String :=
  let s := toString n
  String.mk (List.replicate (width - s.length) '0') ++ s

/-- `datetime.now().strftime("%Y%m%d_%H%M%S")`. -/
def DateTime.strftimeCompact (t : DateTime) : String :=
  padNum 4 t.year ++ padNum 2 t.month ++ padNum 2 t.day ++ "_" ++
    padNum 2 t.hour ++ padNum 2 t.minute ++ padNum 2 t.second

/-- `datetime.now().isoformat()`: `YYYY-MM-DDTHH:MM:SS[.ffffff]`, the
fractional part omitted when the microsecond field is zero. -/
def DateTime.isoformat (t : DateTime) : String :=
  padNum 4 t.year ++ "-" ++ padNum 2 t.month ++ "-" ++ padNum 2 t.day ++ "T" ++
    padNum 2 t.hour ++ ":" ++ padNum 2 t.minute ++ ":" ++ padNum 2 t.second ++
    (if t.microsecond == 0 then "" else "." ++ padNum 6 t.microsecond)

/-- The same instant truncated to whole seconds. -/
def DateTime.truncToSecond (t : DateTime) : DateTime :=
  { t with microsecond := 0 }

/-- The storage directory as a map from filename to file content:
`some j` is a file whose text parses (via `json.load`) to `j`, `none` a
file whose text is not valid JSON. -/
def Store := List (String × Option Json)

/-- Content of the file named `name`, when such a file exists. -/
def storeLookup (store : Store) (name : String) : Option (Option Json) :=
  (List.find? (fun p => p.1 == name) store).map (fun p => p.2)

/-- Writing a file: replaces any existing file of that name. -/
def storeWrite (store : Store) (name : String) (content : Option Json) : Store :=
  List.filter (fun p => !(p.1 == name)) store ++ [(name, content)]

/-- The filename `save_conversation` generates from its first
`datetime.now()` call: `conversation_<strftime>.json`. -/
def saveFilename (t : DateTime) : String :=
  "conversation_" ++ t.strftimeCompact ++ ".json"

/-- The JSON object `save_conversation` writes, from its second
`datetime.now()` call: `{"timestamp": now.isoformat(), "messages": messages}`. -/
def transcriptJson (t : DateTime) (messages : Json) : Json :=
  .obj [("timestamp", .str t.isoformat), ("messages", messages)]

/-- Result of the `/api/save_conversation` handler: HTTP status,
response body, and the storage directory after the call. -/
structure SaveOutcome where
  status : Nat
  body : Json
  store : Store

/-- The `/api/save_conversation` handler.  `messages` is
`data.get("messages", [])`; `t1` and `t2` are the two `datetime.now()`
calls (filename, then stored timestamp); `storageDir` is the textual
path of the storage directory. -/
def saveConversation (messages : Json) (t1 t2 : DateTime) (storageDir : String)
    (store : Store) : SaveOutcome :=
  if !pyTruthy messages then
    { status := 400, body := .obj [("error", .str "No messages to save")], store := store }
  else
    let filename := saveFilename t1
    { status := 200,
      body := .obj [("success", .bool true), ("filename", .str filename),
                    ("path", .str (storageDir ++ "/" ++ filename))],
      store := storeWrite store filename (some (transcriptJson t2 messages)) }

/-- Lexicographic comparison of character lists by code point, the
comparison Python applies between the path strings being sorted. -/
def charsLe : List Char → List Char → Bool
  | [], _ => true
  | _ :: _, [] => false
  | a :: as, b :: bs => if a = b then charsLe as bs else decide (a < b)

/-- Insert into a descending-sorted list of strings. -/
def insertDesc (x : String) : List String → List String
  | [] => [x]
  | y :: ys => if charsLe y.data x.data then x :: y :: ys else y :: insertDesc x ys

/-- `sorted(names, reverse=True)`: descending string sort. -/
def sortDesc : List String → List String
  | [] => []
  | x :: xs => insertDesc x (sortDesc xs)

/-- Does a filename match the glob `conversation_*.json`? -/
def globConvMatch (fname : String) : Bool :=
  charsStart fname.data "conversation_".data &&
    charsStart fname.data.reverse ".json".data.reverse

/-- One element of the `/api/conversations` response. -/
structure ConvEntry where
  filename : String
  timestamp : Json
  message_count : Nat

/-- The per-file body of `list_conversations`: build the entry
`{"filename": ..., "timestamp": data.get("timestamp"),
"message_count": len(data.get("messages", []))}`, `none` when any step
raises (the entry is then skipped, the exception only logged). -/
def mkEntry (fname : String) (data : Json) : Option ConvEntry :=
  match pyGet data "timestamp" .null with
  | .error _ => none
  | .ok ts =>
    match pyGet data "messages" (.arr []) with
    | .error _ => none
    | .ok msgs =>
      match pyLen msgs with
      | .error _ => none
      | .ok n => some { filename := fname, timestamp := ts, message_count := n }

/-- The entry `list_conversations` produces for the file named `name`:
`none` when the file is absent, fails to parse, or its entry
construction raises. -/
def fileEntry (store : Store) (name : String) : Option ConvEntry :=
  match storeLookup store name with
  | some (some data) => mkEntry name data
  | _ => none

/-- The `/api/conversations` handler body: glob `conversation_*.json`
over the storage directory, sort descending, and keep the entries of the
files that parse. -/
def listConversationEntries (store : Store) : List ConvEntry :=
  (sortDesc ((store.map (fun p => p.1)).filter globConvMatch)).filterMap (fileEntry store)

/-- Result of the `/api/chat` handler: HTTP status, response body, and
the outbound requests made. -/
structure ChatOutcome where
  status : Nat
  body : Json
  requests : List HttpRequest

/-- Everything the `/api/chat` handler does before protocol work: read
the five fields with their defaults, reject an untruthy model with 400,
prepend the system-prompt message when truthy, and extend with the
conversation history.  `.error` aborts to the handler-level
`except Exception` (HTTP 500) — in the source only reachable when
`request.json` is not a dict, when `messages` is not iterable, or (in
this model) when `endpoint` is not a string, the value whose substring
test the protocol selection needs. -/
def chatPrepare (reqJson : Json) :
    Except String (Option (String × Json × Json × Json)) :=
  match pyGet reqJson "messages" (.arr []) with
  | .error e => .error e
  | .ok messages =>
    match pyGet reqJson "temperature" (.num (4/5)) with
    | .error e => .error e
    | .ok temperature =>
      match pyGet reqJson "endpoint" (.str "http://localhost:11434") with
      | .error e => .error e
      | .ok endpointJ =>
        match pyGet reqJson "model" (.str "") with
        | .error e => .error e
        | .ok model =>
          match pyGet reqJson "systemPrompt" (.str "") with
          | .error e => .error e
          | .ok systemPrompt =>
            if !pyTruthy model then
              .ok none
            else
              match endpointJ with
              | .str endpoint =>
                match pyIterate messages with
                | .error e => .error e
                | .ok history =>
                  let apiMessages :=
                    (if pyTruthy systemPrompt then
                      [Json.obj [("role", .str "system"), ("content", systemPrompt)]]
                     else []) ++ history
                  .ok (some (endpoint, model, Json.arr apiMessages, temperature))
              | other =>
                .error ("argument of type \x27" ++ pyTypeName other ++ "\x27 is not iterable")

/-- The `/api/chat` handler.  On validation failure returns 400 with no
outbound request; otherwise forwards to `_call_local_llm` and maps its
result: a truthy `error` value gives 500 with the error dict, otherwise
200 with `{"response": response.get("content", "")}`. -/
def chatHandler (reqJson : Json) (outcome : HttpOutcome) : ChatOutcome :=
  match chatPrepare reqJson with
  | .error e => { status := 500, body := .obj [("error", .str e)], requests := [] }
  | .ok none =>
    { status := 400, body := .obj [("error", .str "Model name is required")], requests := [] }
  | .ok (some (endpoint, model, apiMessages, temperature)) =>
    match callLocalLLM endpoint model apiMessages temperature outcome with
    | (.error msg, reqs) =>
      if !(msg == "") then
        { status := 500, body := .obj [("error", .str msg)], requests := reqs }
      else
        { status := 200, body := .obj [("response", .str "")], requests := reqs }
    | (.content c, reqs) =>
      { status := 200, body := .obj [("response", c)], requests := reqs }

/-- C4: a non-200 upstream status makes `_call_local_llm` return an
error dict whose message is built from the status code and the response
body text; a network/connection failure returns an error dict carrying
the failure description; and every call issues exactly one outbound
request (no internal retries). -/
theorem c4_error_results_single_attempt (endpoint : String)
    (model messages temperature : Json) :
    (∀ status text body, status ≠ 200 →
      (callLocalLLM endpoint model messages temperature (.response status text body)).1
        = .error ("LLM API returned status " ++ toString status ++ ": " ++ text)) ∧
    (∀ msg, (callLocalLLM endpoint model messages temperature (.requestException msg)).1
        = .error ("Error connecting to LLM endpoint: " ++ msg)) ∧
    (∀ outcome, (callLocalLLM endpoint model messages temperature outcome).2.length = 1) := by
  refine ⟨?_, ?_, ?_⟩
  · intro status text body h
    simp [callLocalLLM, h]
  · intro msg
    rfl
  · intro outcome
    rfl

/-- Witness for `c4_error_results_single_attempt` at concrete inputs. -/
theorem c4_witness :
    (callLocalLLM "http://localhost:11434" (.str "m") (.arr []) (.num (4/5))
        (.response 404 "not found" (.ok .null))).1
      = .error "LLM API returned status 404: not found" ∧
    (callLocalLLM "http://localhost:11434" (.str "m") (.arr []) (.num (4/5))
        (.requestException "connection refused")).1
      = .error "Error connecting to LLM endpoint: connection refused" ∧
    (callLocalLLM "http://localhost:11434" (.str "m") (.arr []) (.num (4/5))
        (.response 404 "not found" (.ok .null))).2.length = 1 := by
  have h := c4_error_results_single_attempt "http://localhost:11434" (.str "m") (.arr []) (.num (4/5))
  exact ⟨h.1 404 "not found" (.ok .null) (by decide), h.2.1 "connection refused",
    h.2.2 (.response 404 "not found" (.ok .null))⟩

/-- C3: `_get_available_models` is a total function of the call outcome
(modelled here as a Lean function, it cannot raise), and every failure
mode — network exception, non-200 status, a body that fails JSON
decoding, or a 200 body from which the model names cannot be
extracted — yields the empty list. -/
theorem c3_list_models_failure_empty (endpoint : String) :
    (∀ msg, (getAvailableModels endpoint (.requestException msg)).1 = []) ∧
    (∀ status text body, status ≠ 200 →
      (getAvailableModels endpoint (.response status text body)).1 = []) ∧
    (∀ status text e, (getAvailableModels endpoint (.response status text (.error e))).1 = []) ∧
    (∀ status text data e,
      extractModelNames (isOllamaEndpoint endpoint) data = .error e →
      (getAvailableModels endpoint (.response status text (.ok data))).1 = []) := by
  refine ⟨fun msg => rfl, ?_, ?_, ?_⟩
  · intro status text body h
    simp [getAvailableModels, h]
  · intro status text e
    simp only [getAvailableModels]
    split <;> rfl
  · intro status text data e h
    simp [getAvailableModels, h]

/-- Witness for `c3_list_models_failure_empty` at concrete inputs. -/
theorem c3_witness :
    (getAvailableModels "http://localhost:11434" (.requestException "unreachable")).1 = [] ∧
    (getAvailableModels "http://localhost:11434" (.response 500 "oops" (.ok .null))).1 = [] ∧
    (getAvailableModels "http://localhost:11434" (.response 200 "x" (.error "Expecting value"))).1 = [] ∧
    (getAvailableModels "http://localhost:11434" (.response 200 "x" (.ok .null))).1 = [] := by
  have h := c3_list_models_failure_empty "http://localhost:11434"
  exact ⟨h.1 "unreachable", h.2.1 500 "oops" (.ok .null) (by decide),
    h.2.2.1 200 "x" "Expecting value",
    h.2.2.2 200 "x" .null "\x27NoneType\x27 object has no attribute \x27get\x27" rfl⟩

/-- C9: a `/api/chat` request whose `model` field is missing (so the
`data.get("model", "")` default applies) or is the empty string is
answered with HTTP 400, body `{"error": "Model name is required"}`, and
no outbound request is made. -/
theorem c9_empty_model_rejected (fs : List (String × Json))
    (h : lookupField fs "model" = none ∨ lookupField fs "model" = some (.str ""))
    (outcome : HttpOutcome) :
    chatHandler (.obj fs) outcome
      = { status := 400, body := .obj [("error", .str "Model name is required")],
          requests := [] } := by
  have hp : chatPrepare (.obj fs) = .ok none := by
    rcases h with h | h <;> simp [chatPrepare, pyGet, h, pyTruthy]
  simp [chatHandler, hp]

/-- Witness for `c9_empty_model_rejected`: a request with no `model`
key, and one with `"model": ""`. -/
theorem c9_witness :
    chatHandler (.obj [("messages", .arr [])]) (.requestException "down")
      = { status := 400, body := .obj [("error", .str "Model name is required")],
          requests := [] } ∧
    chatHandler (.obj [("model", .str ""), ("messages", .arr [])]) (.requestException "down")
      = { status := 400, body := .obj [("error", .str "Model name is required")],
          requests := [] } := by
  constructor
  · exact c9_empty_model_rejected [("messages", .arr [])] (.inl rfl) (.requestException "down")
  · exact c9_empty_model_rejected [("model", .str ""), ("messages", .arr [])]
      (.inr rfl) (.requestException "down")

/-- Lookup in an empty dict yields nothing. -/
theorem lookupField_nil (key : String) : lookupField [] key = none := rfl

/-- C10: on the OpenAI-compatible variant with a 200 response,
`_call_local_llm` treats the two malformed shapes asymmetrically: a body
with no `"choices"` key falls back to the default `[{}]` and yields
`{"content": ""}`, while a body whose `"choices"` is the empty list
makes the `[0]` index raise `IndexError`, caught by the generic handler
as `{"error": "Unexpected error: list index out of range"}`. -/
theorem c10_choices_asymmetry (endpoint : String)
    (h : isOllamaEndpoint endpoint = false)
    (model messages temperature : Json) (text : String) :
    (∀ fs, lookupField fs "choices" = none →
      (callLocalLLM endpoint model messages temperature
          (.response 200 text (.ok (.obj fs)))).1 = .content (.str "")) ∧
    (∀ fs, lookupField fs "choices" = some (.arr []) →
      (callLocalLLM endpoint model messages temperature
          (.response 200 text (.ok (.obj fs)))).1
        = .error "Unexpected error: list index out of range") := by
  constructor
  · intro fs hfs
    simp [callLocalLLM, extractChatContent, h, pyGet, pyIndex, hfs, lookupField_nil]
  · intro fs hfs
    simp [callLocalLLM, extractChatContent, h, pyGet, pyIndex, hfs, lookupField_nil]

/-- Witness for `c10_choices_asymmetry` at a concrete non-Ollama
endpoint and concrete bodies. -/
theorem c10_witness :
    (callLocalLLM "http://localhost:1234" (.str "m") (.arr []) (.num 1)
        (.response 200 "" (.ok (.obj [])))).1 = .content (.str "") ∧
    (callLocalLLM "http://localhost:1234" (.str "m") (.arr []) (.num 1)
        (.response 200 "" (.ok (.obj [("choices", .arr [])])))).1
      = .error "Unexpected error: list index out of range" := by
  have h := c10_choices_asymmetry "http://localhost:1234" rfl (.str "m") (.arr []) (.num 1) ""
  exact ⟨h.1 [] rfl, h.2 [("choices", .arr [])] rfl⟩

/-- C5: `_check_llm_status` derives `running`, `models` and
`active_model` from the model listing — when `_get_available_models`
returns a non-empty list, `running` is true, `models` is that list and
`active_model` its first entry — and it degrades rather than raising
(it is a total function): a failed or non-zero binary lookup gives
`installed = false`, and an unreachable endpoint gives
`running = false`. -/
theorem c5_status_derivation (endpoint platformName : String)
    (whichOutcome : ProcOutcome) (httpOutcome : HttpOutcome) :
    (∀ m rest, (getAvailableModels endpoint httpOutcome).1 = m :: rest →
      (checkLLMStatus endpoint platformName whichOutcome httpOutcome).running = true ∧
      (checkLLMStatus endpoint platformName whichOutcome httpOutcome).models = m :: rest ∧
      (checkLLMStatus endpoint platformName whichOutcome httpOutcome).active_model = some m) ∧
    (∀ e, whichOutcome = .raised e →
      (checkLLMStatus endpoint platformName whichOutcome httpOutcome).installed = false) ∧
    (∀ rc, whichOutcome = .completed rc → rc ≠ 0 →
      (checkLLMStatus endpoint platformName whichOutcome httpOutcome).installed = false) ∧
    (∀ msg, httpOutcome = .requestException msg →
      (checkLLMStatus endpoint platformName whichOutcome httpOutcome).running = false) := by
  refine ⟨?_, ?_, ?_, ?_⟩
  · intro m rest hm
    simp [checkLLMStatus, hm]
  · intro e he
    subst he
    simp [checkLLMStatus]
    split <;> rfl
  · intro rc hrc hne
    subst hrc
    simp [checkLLMStatus]
    split <;> simp [hne]
  · intro msg hmsg
    subst hmsg
    rfl

/-- Witness for `c5_status_derivation` at concrete inputs: a reachable
Ollama endpoint listing one model, and a failed lookup with an
unreachable endpoint. -/
theorem c5_witness :
    (checkLLMStatus "http://localhost:11434" "Linux" (.completed 0)
        (.response 200 "" (.ok (.obj [("models", .arr [.obj [("name", .str "llama3")]])])))).running
      = true ∧
    (checkLLMStatus "http://localhost:11434" "Linux" (.completed 0)
        (.response 200 "" (.ok (.obj [("models", .arr [.obj [("name", .str "llama3")]])])))).active_model
      = some (.str "llama3") ∧
    (checkLLMStatus "http://localhost:11434" "Linux" (.raised "timeout")
        (.requestException "unreachable")).installed = false ∧
    (checkLLMStatus "http://localhost:11434" "Linux" (.raised "timeout")
        (.requestException "unreachable")).running = false := by
  have h1 := c5_status_derivation "http://localhost:11434" "Linux" (.completed 0)
    (.response 200 "" (.ok (.obj [("models", .arr [.obj [("name", .str "llama3")]])])))
  have h2 := c5_status_derivation "http://localhost:11434" "Linux" (.raised "timeout")
    (.requestException "unreachable")
  have hm := h1.1 (.str "llama3") [] rfl
  exact ⟨hm.1, hm.2.2, h2.2.1 "timeout" rfl, h2.2.2.2 "unreachable" rfl⟩

/-- C6 counterexample: on Windows with Ollama installed, when
`net start Ollama` fails with `CalledProcessError`, `_start_llm_service`
returns a failure result immediately — the `ollama serve` detached
fallback (which here would have succeeded, `popenOutcome = none`) is
never attempted, contradicting the claim that on failure of the
preferred mechanism the service falls back to a detached `ollama serve`
launch and that a failure result is returned only when all attempts
fail. -/
theorem c6_counterexample :
    (startLLMService "Windows" (.completed 0)
        (.calledProcessError "Command returned non-zero exit status 2.") none).1.success
      = false ∧
    (startLLMService "Windows" (.completed 0)
        (.calledProcessError "Command returned non-zero exit status 2.") none).2
      = [.run ["where", "ollama"], .run ["net", "start", "Ollama"]] := by
  exact ⟨rfl, rfl⟩

/-- C6 amended: when the runtime is installed, on Linux a
`CalledProcessError` from `systemctl start ollama` triggers the detached
`ollama serve` fallback (success when the launch does not raise); on
macOS a `CalledProcessError` or `FileNotFoundError` from
`brew services start ollama` triggers the same fallback; but on Windows
a failed `net start Ollama` returns a failure result with no fallback
attempt, and on Linux a non-`CalledProcessError` failure of `systemctl`
(e.g. the command being absent) also returns a failure result without
attempting the fallback. -/
theorem c6_amended_fallback_behaviour (eSvc ePopen : String) :
    (∀ rc, rc = 0 →
      ((startLLMService "Linux" (.completed rc) (.calledProcessError eSvc) none).1.success = true ∧
       (startLLMService "Linux" (.completed rc) (.calledProcessError eSvc) none).2
         = [.run ["which", "ollama"], .run ["systemctl", "start", "ollama"],
            .popen ["ollama", "serve"]] ∧
       (startLLMService "Linux" (.completed rc) (.calledProcessError eSvc) (some ePopen)).1.success
         = false ∧
       (startLLMService "Linux" (.completed rc) (.fileNotFound eSvc) none).1.success = false ∧
       (startLLMService "Linux" (.completed rc) (.fileNotFound eSvc) none).2
         = [.run ["which", "ollama"], .run ["systemctl", "start", "ollama"]])) ∧
    (∀ rc, rc = 0 →
      ((startLLMService "Darwin" (.completed rc) (.calledProcessError eSvc) none).1.success = true ∧
       (startLLMService "Darwin" (.completed rc) (.fileNotFound eSvc) none).1.success = true ∧
       (startLLMService "Darwin" (.completed rc) (.fileNotFound eSvc) none).2
         = [.run ["which", "ollama"], .run ["brew", "services", "start", "ollama"],
            .popen ["ollama", "serve"]])) ∧
    (∀ rc, rc = 0 →
      ((startLLMService "Windows" (.completed rc) (.calledProcessError eSvc) none).1
         = { success := false,
             message := "Please start Ollama from the Start Menu or try running \x27ollama serve\x27 manually",
             error := "Could not start Ollama service", install_url := none } ∧
       (startLLMService "Windows" (.completed rc) (.calledProcessError eSvc) none).2
         = [.run ["where", "ollama"], .run ["net", "start", "Ollama"]])) := by
  refine ⟨?_, ?_, ?_⟩
  · intro rc hrc
    subst hrc
    exact ⟨rfl, rfl, rfl, rfl, rfl⟩
  · intro rc hrc
    subst hrc
    exact ⟨rfl, rfl, rfl⟩
  · intro rc hrc
    subst hrc
    exact ⟨rfl, rfl⟩

/-- Witness for `c6_amended_fallback_behaviour` at concrete exception
texts and return code 0. -/
theorem c6_amended_witness :
    (startLLMService "Linux" (.completed 0)
        (.calledProcessError "exit status 1") none).1.success = true ∧
    (startLLMService "Darwin" (.completed 0)
        (.fileNotFound "No such file or directory: \x27brew\x27") none).1.success = true ∧
    (startLLMService "Windows" (.completed 0)
        (.calledProcessError "exit status 2") none).1.success = false := by
  have h := c6_amended_fallback_behaviour "exit status 1" "spawn failed"
  have h2 := c6_amended_fallback_behaviour "No such file or directory: \x27brew\x27" "spawn failed"
  have h3 := c6_amended_fallback_behaviour "exit status 2" "spawn failed"
  exact ⟨(h.1 0 rfl).1, (h2.2.1 0 rfl).2.1, by rw [(h3.2.2 0 rfl).1]⟩

/-- A character list is a left part of itself followed by anything. -/
theorem charsStart_append (l m : List Char) : charsStart (l ++ m) l = true := by
  induction l with
  | nil => cases m <;> rfl
  | cons a as ih => simp [charsStart, ih]

/-- Reading back the file just written returns exactly what was
written. -/
theorem storeLookup_storeWrite (store : Store) (n : String) (c : Option Json) :
    storeLookup (storeWrite store n c) n = some c := by
  unfold storeLookup storeWrite
  rw [List.find?_append]
  have h1 : List.find? (fun p => p.1 == n) (List.filter (fun p => !(p.1 == n)) store)
      = none := by
    rw [List.find?_eq_none]
    intro x hx
    have hxf := (List.mem_filter.mp hx).2
    simp at hxf ⊢
    exact hxf
  rw [h1]
  simp [List.find?]

/-- A nonempty message list is truthy. -/
theorem pyTruthy_arr_cons (a : Json) (l : List Json) : pyTruthy (.arr (a :: l)) = true := rfl

/-- The generated filename depends only on the wall-clock fields down to
seconds. -/
theorem saveFilename_congr (t t' : DateTime) (hy : t.year = t'.year)
    (hmo : t.month = t'.month) (hd : t.day = t'.day) (hh : t.hour = t'.hour)
    (hmi : t.minute = t'.minute) (hs : t.second = t'.second) :
    saveFilename t = saveFilename t' := by
  simp [saveFilename, DateTime.strftimeCompact, hy, hmo, hd, hh, hmi, hs]

/-- C7: `save_conversation` rejects an untruthy (in particular empty)
message list with HTTP 400 and leaves the storage directory untouched;
for a non-empty list it returns 200 and writes the transcript under
`conversation_<YYYYMMDD_HHMMSS>.json` built from the zero-padded fields
of the first `datetime.now()` call; the filename depends only on the
timestamp truncated to seconds, so a second save within the same second
reuses the filename and its content replaces the first save's. -/
theorem c7_save_filename_collision (t1 t2 : DateTime) (storageDir : String) (store : Store) :
    (saveConversation (.arr []) t1 t2 storageDir store
      = { status := 400, body := .obj [("error", .str "No messages to save")],
          store := store }) ∧
    (∀ ms : List Json, ms ≠ [] →
      (saveConversation (.arr ms) t1 t2 storageDir store).status = 200 ∧
      (saveConversation (.arr ms) t1 t2 storageDir store).store
        = storeWrite store (saveFilename t1) (some (transcriptJson t2 (.arr ms)))) ∧
    (saveFilename t1
      = "conversation_" ++ (padNum 4 t1.year ++ padNum 2 t1.month ++ padNum 2 t1.day
          ++ "_" ++ padNum 2 t1.hour ++ padNum 2 t1.minute ++ padNum 2 t1.second)
          ++ ".json") ∧
    (∀ t1' : DateTime, t1.year = t1'.year → t1.month = t1'.month → t1.day = t1'.day →
      t1.hour = t1'.hour → t1.minute = t1'.minute → t1.second = t1'.second →
      saveFilename t1 = saveFilename t1') ∧
    (∀ (ms ms' : List Json) (t1' t2' : DateTime), ms ≠ [] → ms' ≠ [] →
      t1.year = t1'.year → t1.month = t1'.month → t1.day = t1'.day →
      t1.hour = t1'.hour → t1.minute = t1'.minute → t1.second = t1'.second →
      storeLookup (saveConversation (.arr ms') t1' t2' storageDir
          (saveConversation (.arr ms) t1 t2 storageDir store).store).store (saveFilename t1)
        = some (some (transcriptJson t2' (.arr ms')))) := by
  refine ⟨rfl, ?_, rfl, saveFilename_congr t1, ?_⟩
  · intro ms hms
    match ms, hms with
    | a :: l, _ => exact ⟨rfl, rfl⟩
  · intro ms ms' t1' t2' hms hms' hy hmo hd hh hmi hs
    have hf : saveFilename t1 = saveFilename t1' :=
      saveFilename_congr t1 t1' hy hmo hd hh hmi hs
    match ms, hms, ms', hms' with
    | a :: l, _, a' :: l', _ =>
      show storeLookup (storeWrite _ (saveFilename t1') _) (saveFilename t1) = _
      rw [hf]
      exact storeLookup_storeWrite _ _ _

/-- Witness for `c7_save_filename_collision` at concrete times and
messages: two saves in the same second collide and the second wins. -/
theorem c7_witness :
    (saveConversation (.arr []) ⟨2024, 5, 6, 7, 8, 9, 0⟩ ⟨2024, 5, 6, 7, 8, 9, 100⟩
        "/home/u/.local_llm_chat/conversations" []).status = 400 ∧
    saveFilename ⟨2024, 5, 6, 7, 8, 9, 0⟩ = "conversation_20240506_070809.json" ∧
    storeLookup (saveConversation (.arr [.str "second"]) ⟨2024, 5, 6, 7, 8, 9, 500⟩
        ⟨2024, 5, 6, 7, 8, 9, 600⟩ "/home/u/.local_llm_chat/conversations"
        (saveConversation (.arr [.str "first"]) ⟨2024, 5, 6, 7, 8, 9, 0⟩
          ⟨2024, 5, 6, 7, 8, 9, 100⟩ "/home/u/.local_llm_chat/conversations" []).store).store
        (saveFilename ⟨2024, 5, 6, 7, 8, 9, 0⟩)
      = some (some (transcriptJson ⟨2024, 5, 6, 7, 8, 9, 600⟩ (.arr [.str "second"]))) := by
  have h := c7_save_filename_collision ⟨2024, 5, 6, 7, 8, 9, 0⟩ ⟨2024, 5, 6, 7, 8, 9, 100⟩
    "/home/u/.local_llm_chat/conversations" []
  refine ⟨by rw [h.1], rfl, ?_⟩
  exact h.2.2.2.2 [.str "first"] [.str "second"] ⟨2024, 5, 6, 7, 8, 9, 500⟩
    ⟨2024, 5, 6, 7, 8, 9, 600⟩ (by simp) (by simp) rfl rfl rfl rfl rfl rfl

/-- C2: saving a non-empty message list writes the transcript object
`{"timestamp": t2.isoformat(), "messages": messages}` under the
generated filename; reading that object back gives exactly the same
message list (same length, order and content) and the stored timestamp,
which is the ISO form of the save time — its text begins with the
ISO form of the save time truncated to seconds.  Listing the directory
afterwards computes the entry for the saved file from the stored
content (count and timestamp intact) — `list_conversations` opens files
read-only, modelled here as a pure function of the store, so neither
load nor list mutates the file. -/
theorem c2_save_load_roundtrip (ms : List Json) (h : ms ≠ []) (t1 t2 : DateTime)
    (storageDir : String) (store : Store) :
    (saveConversation (.arr ms) t1 t2 storageDir store).status = 200 ∧
    storeLookup (saveConversation (.arr ms) t1 t2 storageDir store).store (saveFilename t1)
      = some (some (transcriptJson t2 (.arr ms))) ∧
    pyGet (transcriptJson t2 (.arr ms)) "messages" (.arr []) = .ok (.arr ms) ∧
    pyGet (transcriptJson t2 (.arr ms)) "timestamp" .null = .ok (.str t2.isoformat) ∧
    charsStart t2.isoformat.data t2.truncToSecond.isoformat.data = true ∧
    fileEntry (saveConversation (.arr ms) t1 t2 storageDir store).store (saveFilename t1)
      = some ⟨saveFilename t1, .str t2.isoformat, ms.length⟩ := by
  have hw : (saveConversation (.arr ms) t1 t2 storageDir store).store
      = storeWrite store (saveFilename t1) (some (transcriptJson t2 (.arr ms))) := by
    match ms, h with
    | a :: l, _ => rfl
  have hlook := storeLookup_storeWrite store (saveFilename t1)
    (some (transcriptJson t2 (.arr ms)))
  refine ⟨?_, ?_, rfl, rfl, ?_, ?_⟩
  · match ms, h with
    | a :: l, _ => rfl
  · rw [hw]
    exact hlook
  · have hdata : t2.isoformat.data
        = t2.truncToSecond.isoformat.data
            ++ (if t2.microsecond == 0 then "" else "." ++ padNum 6 t2.microsecond).data := by
      cases hm : t2.microsecond == 0 <;>
        simp [DateTime.isoformat, DateTime.truncToSecond, hm]
    rw [hdata]
    exact charsStart_append _ _
  · rw [hw]
    simp only [fileEntry, hlook]
    rfl

/-- Witness for `c2_save_load_roundtrip` at a concrete two-message
conversation and concrete times. -/
theorem c2_witness :
    pyGet (transcriptJson ⟨2024, 5, 6, 7, 8, 9, 42⟩
        (.arr [.obj [("role", .str "user"), ("content", .str "hi")],
               .obj [("role", .str "assistant"), ("content", .str "hello")]]))
      "messages" (.arr [])
      = .ok (.arr [.obj [("role", .str "user"), ("content", .str "hi")],
                   .obj [("role", .str "assistant"), ("content", .str "hello")]]) ∧
    fileEntry (saveConversation
        (.arr [.obj [("role", .str "user"), ("content", .str "hi")],
               .obj [("role", .str "assistant"), ("content", .str "hello")]])
        ⟨2024, 5, 6, 7, 8, 9, 0⟩ ⟨2024, 5, 6, 7, 8, 9, 42⟩ "/tmp/conv" []).store
      (saveFilename ⟨2024, 5, 6, 7, 8, 9, 0⟩)
      = some ⟨"conversation_20240506_070809.json", .str "2024-05-06T07:08:09.000042", 2⟩ := by
  have h := c2_save_load_roundtrip
    [.obj [("role", .str "user"), ("content", .str "hi")],
     .obj [("role", .str "assistant"), ("content", .str "hello")]]
    (by simp) ⟨2024, 5, 6, 7, 8, 9, 0⟩ ⟨2024, 5, 6, 7, 8, 9, 42⟩ "/tmp/conv" []
  exact ⟨h.2.2.1, by rw [h.2.2.2.2.2]; rfl⟩

/-- The comprehension over a list of one-key objects extracts the values
under that key. -/
theorem pyComprehend_name_objs (key : String) (names : List String) :
    pyComprehend key (names.map (fun n => Json.obj [(key, Json.str n)]))
      = .ok (names.map Json.str) := by
  induction names with
  | nil => rfl
  | cons n rest ih => simp [pyComprehend, pySubscript, lookupField, ih]

/-- C1: endpoints whose string contains `"11434"` or (case-insensitively)
`"ollama"` get the Ollama wire protocol — chat POSTs to
`<endpoint>/api/chat` with body
`{model, messages, stream: false, options: {temperature}}` and reads the
reply at `message.content`, and model listing GETs `<endpoint>/api/tags`
reading `models[].name` — while every other endpoint gets the
OpenAI-compatible protocol — chat POSTs to
`<endpoint>/v1/chat/completions` with body
`{model, messages, temperature}` reading
`choices[0].message.content`, and model listing GETs
`<endpoint>/v1/models` reading `data[].id`. -/
theorem c1_protocol_selection (endpoint : String) (model messages temperature : Json)
    (text : String) :
    (isOllamaEndpoint endpoint = true →
      (∀ outcome, (callLocalLLM endpoint model messages temperature outcome).2
        = [⟨"POST", endpoint ++ "/api/chat",
            some (.obj [("model", model), ("messages", messages), ("stream", .bool false),
                        ("options", .obj [("temperature", temperature)])])⟩]) ∧
      (∀ c : Json, (callLocalLLM endpoint model messages temperature
          (.response 200 text (.ok (.obj [("message", .obj [("content", c)])])))).1
        = .content c) ∧
      (∀ outcome, (getAvailableModels endpoint outcome).2
        = [⟨"GET", endpoint ++ "/api/tags", none⟩]) ∧
      (∀ names : List String, (getAvailableModels endpoint
          (.response 200 text (.ok (.obj [("models",
            .arr (names.map (fun n => .obj [("name", .str n)])))])))).1
        = names.map Json.str)) ∧
    (isOllamaEndpoint endpoint = false →
      (∀ outcome, (callLocalLLM endpoint model messages temperature outcome).2
        = [⟨"POST", endpoint ++ "/v1/chat/completions",
            some (.obj [("model", model), ("messages", messages),
                        ("temperature", temperature)])⟩]) ∧
      (∀ (c : Json) (rest : List Json), (callLocalLLM endpoint model messages temperature
          (.response 200 text (.ok (.obj [("choices",
            .arr (.obj [("message", .obj [("content", c)])] :: rest))])))).1
        = .content c) ∧
      (∀ outcome, (getAvailableModels endpoint outcome).2
        = [⟨"GET", endpoint ++ "/v1/models", none⟩]) ∧
      (∀ ids : List String, (getAvailableModels endpoint
          (.response 200 text (.ok (.obj [("data",
            .arr (ids.map (fun n => .obj [("id", .str n)])))])))).1
        = ids.map Json.str)) := by
  constructor
  · intro h
    refine ⟨?_, ?_, ?_, ?_⟩
    · intro outcome
      simp [callLocalLLM, h, ollamaPayload]
    · intro c
      simp [callLocalLLM, h, extractChatContent, pyGet, lookupField]
    · intro outcome
      simp [getAvailableModels, h]
    · intro names
      simp [getAvailableModels, h, extractModelNames, pyGet, pyIterate, lookupField,
        pyComprehend_name_objs]
  · intro h
    refine ⟨?_, ?_, ?_, ?_⟩
    · intro outcome
      simp [callLocalLLM, h, openaiPayload]
    · intro c rest
      simp [callLocalLLM, h, extractChatContent, pyGet, pyIndex, lookupField]
    · intro outcome
      simp [getAvailableModels, h]
    · intro ids
      simp [getAvailableModels, h, extractModelNames, pyGet, pyIterate, lookupField,
        pyComprehend_name_objs]

/-- Witness for `c1_protocol_selection` at the default Ollama endpoint
(contains `11434`) and a plain LM-Studio-style endpoint (contains
neither marker). -/
theorem c1_witness :
    (callLocalLLM "http://localhost:11434" (.str "llama3") (.arr []) (.num (4/5))
        (.requestException "down")).2
      = [⟨"POST", "http://localhost:11434/api/chat",
          some (.obj [("model", .str "llama3"), ("messages", .arr []),
                      ("stream", .bool false),
                      ("options", .obj [("temperature", .num (4/5))])])⟩] ∧
    (callLocalLLM "http://localhost:11434" (.str "llama3") (.arr []) (.num (4/5))
        (.response 200 "" (.ok (.obj [("message", .obj [("content", .str "hi")])])))).1
      = .content (.str "hi") ∧
    (getAvailableModels "http://localhost:11434"
        (.response 200 "" (.ok (.obj [("models",
          .arr [.obj [("name", .str "llama3")], .obj [("name", .str "phi3")]])])))).1
      = [.str "llama3", .str "phi3"] ∧
    (callLocalLLM "http://localhost:1234" (.str "qwen") (.arr []) (.num (4/5))
        (.requestException "down")).2
      = [⟨"POST", "http://localhost:1234/v1/chat/completions",
          some (.obj [("model", .str "qwen"), ("messages", .arr []),
                      ("temperature", .num (4/5))])⟩] ∧
    (callLocalLLM "http://localhost:1234" (.str "qwen") (.arr []) (.num (4/5))
        (.response 200 "" (.ok (.obj [("choices",
          .arr [.obj [("message", .obj [("content", .str "yo")])]])])))).1
      = .content (.str "yo") ∧
    (getAvailableModels "http://localhost:1234"
        (.response 200 "" (.ok (.obj [("data", .arr [.obj [("id", .str "qwen")]])])))).1
      = [.str "qwen"] := by
  have ho := c1_protocol_selection "http://localhost:11434" (.str "llama3") (.arr [])
    (.num (4/5)) ""
  have hl := c1_protocol_selection "http://localhost:1234" (.str "qwen") (.arr [])
    (.num (4/5)) ""
  have h1 := ho.1 rfl
  have h2 := hl.2 rfl
  refine ⟨h1.1 _, h1.2.1 (.str "hi"), ?_, h2.1 _, ?_, ?_⟩
  · have := h1.2.2.2 ["llama3", "phi3"]
    simpa using this
  · have := h2.2.1 (.str "yo") []
    simpa using this
  · have := h2.2.2.2 ["qwen"]
    simpa using this

/-- `charsLe` is total. -/
theorem charsLe_total (a : List Char) : ∀ b, charsLe a b = true ∨ charsLe b a = true := by
  induction a with
  | nil => intro b; left; rfl
  | cons x xs ih =>
    intro b
    cases b with
    | nil => right; rfl
    | cons y ys =>
      by_cases hxy : x = y
      · subst hxy
        rcases ih ys with h | h
        · left; simp [charsLe, h]
        · right; simp [charsLe, h]
      · rcases lt_trichotomy x y with h | h | h
        · left; simp [charsLe, hxy, h]
        · exact absurd h hxy
        · right
          have hyx : ¬(y = x) := fun he => hxy he.symm
          simp [charsLe, hyx, h]

/-- `charsLe` is antisymmetric. -/
theorem charsLe_antisymm_chars (a : List Char) :
    ∀ b, charsLe a b = true → charsLe b a = true → a = b := by
  induction a with
  | nil =>
    intro b _ hba
    cases b with
    | nil => rfl
    | cons y ys => simp [charsLe] at hba
  | cons x xs ih =>
    intro b hab hba
    cases b with
    | nil => simp [charsLe] at hab
    | cons y ys =>
      by_cases hxy : x = y
      · subst hxy
        simp [charsLe] at hab hba
        rw [ih ys hab hba]
      · have hyx : ¬(y = x) := fun he => hxy he.symm
        simp [charsLe, hxy, hyx] at hab hba
        exact absurd (lt_trans hab hba) (lt_irrefl x)

/-- `charsLe` is transitive. -/
theorem charsLe_trans (a : List Char) :
    ∀ b c, charsLe a b = true → charsLe b c = true → charsLe a c = true := by
  induction a with
  | nil => intro b c _ _; rfl
  | cons x xs ih =>
    intro b c hab hbc
    cases b with
    | nil => simp [charsLe] at hab
    | cons y ys =>
      cases c with
      | nil => simp [charsLe] at hbc
      | cons z zs =>
        by_cases hxy : x = y <;> by_cases hyz : y = z
        · subst hxy; subst hyz
          simp [charsLe] at hab hbc ⊢
          exact ih ys zs hab hbc
        · subst hxy
          simp [charsLe, hyz] at hbc ⊢
          simp [hyz, hbc]
        · subst hyz
          simp [charsLe, hxy] at hab ⊢
          simp [hxy, hab]
        · simp [charsLe, hxy, hyz] at hab hbc
          have hxz : x < z := lt_trans hab hbc
          have hne : x ≠ z := ne_of_lt hxz
          simp [charsLe, hne, hxz]

/-- The descending-order relation on filenames, as Python compares the
path strings. -/
def strDescRel (a b : String) : Prop := charsLe b.data a.data = true

/-- Membership in an insertion. -/
theorem mem_insertDesc {y x : String} {l : List String} :
    y ∈ insertDesc x l → y = x ∨ y ∈ l := by
  induction l with
  | nil => intro h; simp [insertDesc] at h; exact Or.inl h
  | cons z zs ih =>
    intro h
    simp only [insertDesc] at h
    split at h
    · rcases List.mem_cons.mp h with h | h
      · exact Or.inl h
      · exact Or.inr h
    · rcases List.mem_cons.mp h with h | h
      · exact Or.inr (List.mem_cons.mpr (Or.inl h))
      · rcases ih h with h | h
        · exact Or.inl h
        · exact Or.inr (List.mem_cons.mpr (Or.inr h))

/-- Insertion preserves descending sortedness. -/
theorem sorted_insertDesc (x : String) (l : List String)
    (hl : List.Sorted strDescRel l) : List.Sorted strDescRel (insertDesc x l) := by
  induction l with
  | nil => simp [insertDesc, List.Sorted]
  | cons y ys ih =>
    have hy := (List.sorted_cons.mp hl).1
    have hys := (List.sorted_cons.mp hl).2
    cases hcond : charsLe y.data x.data with
    | true =>
      have heq : insertDesc x (y :: ys) = x :: y :: ys := by simp [insertDesc, hcond]
      rw [heq]
      refine List.sorted_cons.mpr ⟨?_, hl⟩
      intro z hz
      rcases List.mem_cons.mp hz with h | h
      · rw [h]
        exact hcond
      · exact charsLe_trans _ _ _ (hy z h) hcond
    | false =>
      have heq : insertDesc x (y :: ys) = y :: insertDesc x ys := by simp [insertDesc, hcond]
      rw [heq]
      refine List.sorted_cons.mpr ⟨?_, ih hys⟩
      intro z hz
      rcases mem_insertDesc hz with h | h
      · rw [h]
        rcases charsLe_total x.data y.data with hc | hc
        · exact hc
        · rw [hcond] at hc
          exact absurd hc (by simp)
      · exact hy z h

/-- Insertion is a permutation of consing. -/
theorem perm_insertDesc (x : String) (l : List String) :
    (insertDesc x l).Perm (x :: l) := by
  induction l with
  | nil => exact List.Perm.refl _
  | cons y ys ih =>
    simp only [insertDesc]
    split
    · exact List.Perm.refl _
    · exact (List.Perm.cons y ih).trans (List.Perm.swap x y ys)

/-- `sortDesc` sorts descending. -/
theorem sortDesc_sorted (l : List String) : List.Sorted strDescRel (sortDesc l) := by
  induction l with
  | nil => simp [sortDesc, List.Sorted]
  | cons x xs ih => exact sorted_insertDesc x (sortDesc xs) ih

/-- `sortDesc` permutes its input. -/
theorem sortDesc_perm (l : List String) : (sortDesc l).Perm l := by
  induction l with
  | nil => exact List.Perm.refl _
  | cons x xs ih =>
    exact (perm_insertDesc x (sortDesc xs)).trans (List.Perm.cons x ih)

/-- An entry built for filename `n` carries `n` as its filename. -/
theorem fileEntry_filename {store : Store} {n : String} {e : ConvEntry}
    (h : fileEntry store n = some e) : e.filename = n := by
  unfold fileEntry at h
  split at h
  · unfold mkEntry at h
    split at h
    · exact absurd h (by simp)
    · split at h
      · exact absurd h (by simp)
      · split at h
        · exact absurd h (by simp)
        · cases h
          rfl
  · exact absurd h (by simp)

/-- Mapping filenames over the kept entries filters the name list by
entry construction succeeding. -/
theorem filterMap_fileEntry_filenames (store : Store) (l : List String) :
    ((l.filterMap (fileEntry store)).map (fun e => e.filename))
      = l.filter (fun n => (fileEntry store n).isSome) := by
  induction l with
  | nil => rfl
  | cons n ns ih =>
    cases h : fileEntry store n with
    | none => simp [List.filterMap_cons, List.filter_cons, h, ih]
    | some e =>
      simp [List.filterMap_cons, List.filter_cons, h, ih, fileEntry_filename h]

/-- Sorting commutes with filtering for the descending string order. -/
theorem sortDesc_filter_comm (p : String → Bool) (l : List String) :
    (sortDesc l).filter p = sortDesc (l.filter p) := by
  haveI inst : IsAntisymm String strDescRel :=
    ⟨fun a b h1 h2 => String.ext (charsLe_antisymm_chars a.data b.data h2 h1)⟩
  exact @List.eq_of_perm_of_sorted String strDescRel inst _ _
    (((sortDesc_perm l).filter p).trans (sortDesc_perm (l.filter p)).symm)
    (List.Pairwise.filter p (sortDesc_sorted l))
    (sortDesc_sorted (l.filter p))

/-- C8: `list_conversations` produces exactly one entry per transcript
file whose content parses and yields an entry (files failing either step
are skipped, leaving the rest intact), its output is ordered by filename
descending, and each produced entry is the one computed from its file's
stored content. -/
theorem c8_listing_order_and_skip (store : Store) :
    ((listConversationEntries store).map (fun e => e.filename)
      = sortDesc (((store.map (fun p => p.1)).filter globConvMatch).filter
          (fun n => (fileEntry store n).isSome))) ∧
    List.Sorted strDescRel ((listConversationEntries store).map (fun e => e.filename)) ∧
    (∀ e ∈ listConversationEntries store, fileEntry store e.filename = some e) := by
  have h1 : (listConversationEntries store).map (fun e => e.filename)
      = (sortDesc ((store.map (fun p => p.1)).filter globConvMatch)).filter
          (fun n => (fileEntry store n).isSome) :=
    filterMap_fileEntry_filenames store _
  refine ⟨?_, ?_, ?_⟩
  · rw [h1, sortDesc_filter_comm]
  · rw [h1]
    exact List.Pairwise.filter _ (sortDesc_sorted _)
  · intro e he
    obtain ⟨n, _, hfe⟩ := List.mem_filterMap.mp he
    rw [fileEntry_filename hfe]
    exact hfe

/-- Witness for `c8_listing_order_and_skip` on a concrete directory
holding two parseable transcripts, one corrupt transcript and one
non-matching file: the corrupt and non-matching files are skipped, the
other two are listed newest-first with their stored data. -/
theorem c8_witness :
    (listConversationEntries
        [("conversation_20240102_101010.json",
          some (.obj [("timestamp", .str "2024-01-02T10:10:10"), ("messages", .arr [.null])])),
         ("conversation_20240103_101010.json", none),
         ("readme.txt", some .null),
         ("conversation_20240101_101010.json",
          some (.obj [("timestamp", .str "2024-01-01T10:10:10"), ("messages", .arr [])]))]).map
        (fun e => e.filename)
      = ["conversation_20240102_101010.json", "conversation_20240101_101010.json"] ∧
    fileEntry
        [("conversation_20240102_101010.json",
          some (.obj [("timestamp", .str "2024-01-02T10:10:10"), ("messages", .arr [.null])])),
         ("conversation_20240103_101010.json", none),
         ("readme.txt", some .null),
         ("conversation_20240101_101010.json",
          some (.obj [("timestamp", .str "2024-01-01T10:10:10"), ("messages", .arr [])]))]
        "conversation_20240102_101010.json"
      = some ⟨"conversation_20240102_101010.json", .str "2024-01-02T10:10:10", 1⟩ := by
  have h := c8_listing_order_and_skip
    [("conversation_20240102_101010.json",
      some (.obj [("timestamp", .str "2024-01-02T10:10:10"), ("messages", .arr [.null])])),
     ("conversation_20240103_101010.json", none),
     ("readme.txt", some .null),
     ("conversation_20240101_101010.json",
      some (.obj [("timestamp", .str "2024-01-01T10:10:10"), ("messages", .arr [])]))]
  refine ⟨by rw [h.1]; rfl, ?_⟩
  refine h.2.2 ⟨"conversation_20240102_101010.json", .str "2024-01-02T10:10:10", 1⟩ ?_
  exact List.Mem.head _
